import Mathlib

/-!
Verification of `azure_maps_batch_geocode_and_merge.py`.

The script loads an Excel sheet into a pandas DataFrame, filters the rows with
a non-empty (after `astype(str).str.strip()`) address, chunks them into batches
of `BATCH_SIZE`, submits each batch to the Azure Maps async batch endpoint,
polls the continuation URL until the results are ready, parses the best match
per request, and merges the parsed values back into the original table.

The embedding below models:
  * JSON values (`Json`) with Python truthiness,
  * the pandas table as a list of rows whose cells are `Json`
    (`Json.null` plays the role of NaN/None, i.e. a pandas NA cell),
  * `load_locations`, `build_batch_requests`, `_merge_params_into_url`,
    `poll_batch` (over a mock response stream, with explicit fuel and
    accumulated sleep-seconds standing in for wall-clock time),
    `parse_results`, and the result-merge section of `main`.
-/

namespace AzureGeocode

/-- JSON values as delivered by `requests.Response.json()`.  Numbers are
modelled as integers: no claim performs arithmetic on them, they are only
carried around and compared. -/
inductive Json where
  | null
  | str (s : String)
  | num (n : Int)
  | bool (b : Bool)
  | arr (items : List Json)
  | obj (fields : List (String × Json))

/-- Python truthiness of a JSON value (`if x:`). -/
def Json.truthy : Json → Bool
  | .null => false
  | .str s => s != ""
  | .num n => n != 0
  | .bool b => b
  | .arr xs => !xs.isEmpty
  | .obj fs => !fs.isEmpty

/-- `x.get(k)` for a Python dict: `none` models the `AttributeError` crash when
`x` is not a dict; a missing key yields `Json.null` (Python `None`). -/
def Json.get? : Json → String → Option Json
  | .obj fs, k => some (((fs.find? (fun p => p.1 == k)).map Prod.snd).getD .null)
  | _, _ => none

/-- `x.get(k, d)` for a Python dict with an explicit default: a key that is
present with value `null` still yields `null` (only a missing key yields the
default), exactly as in Python. -/
def Json.getD : Json → String → Json → Option Json
  | .obj fs, k, d => some (((fs.find? (fun p => p.1 == k)).map Prod.snd).getD d)
  | _, _, _ => none

/-- `isinstance(x, dict) and k in x`. -/
def Json.hasKey : Json → String → Bool
  | .obj fs, k => fs.any (fun p => p.1 == k)
  | _, _ => false

/-- Python `==` between a JSON value and a string literal. -/
def jeqStr (j : Json) (s : String) : Bool :=
  match j with
  | .str t => t == s
  | _ => false

/-- One record produced by `parse_results` per submitted request. -/
structure ParsedRec where
  lat : Json
  lon : Json
  status : Json
  confidence : Json

/-- The loop body of `parse_results` (lines 198-211): extract the best match of
one entry of `batchItems`.  `none` models a Python crash (attribute or
indexing error on an unexpectedly shaped value). -/
def parseItem (item : Json) : Option ParsedRec := do
  let resp0 ← item.get? "response"                 -- item.get('response')
  let resp := if resp0.truthy then resp0 else .obj []   -- ... or {}
  let res0 ← resp.get? "results"                   -- resp.get('results')
  let reslist := if res0.truthy then res0 else .arr []  -- ... or []
  if reslist.truthy then
    match reslist with
    | .arr (best :: _) =>                          -- best = reslist[0]
      let pos ← best.getD "position" (.obj [])     -- best.get('position', p)
      let lat ← pos.get? "lat"
      let lon ← pos.get? "lon"
      let t ← best.get? "type"
      let et ← best.get? "entityType"
      let sc ← best.get? "score"
      some ⟨lat, lon, if t.truthy then t else if et.truthy then et else .str "Matched", sc⟩
    | _ => none       -- a truthy non-list: indexing/attribute access crashes
  else
    some ⟨.null, .null, .str "No Match", .null⟩

/-- `parse_results` (lines 191-212). -/
def parse_results (batch_result : Json) : Option (List ParsedRec) := do
  let items0 ← batch_result.get? "batchItems"
  let items := if items0.truthy then items0 else .arr []   -- ... or []
  match items with
  | .arr l => l.mapM parseItem
  | _ => none          -- iterating a truthy non-list crashes at item.get

/-! ## Row loading (`load_locations`, lines 63-73) -/

/-- `str(cell)` as applied by `df[col].astype(str)`.  A pandas NA cell (an
Excel blank, read as NaN) stringifies to the literal `"nan"`.  Excel cells are
scalars, so the `arr`/`obj` cases are unreachable; they are rendered by a
nonempty placeholder as every Python `str()` of a container is nonempty. -/
def astypeStr : Json → String
  | .null => "nan"
  | .str s => s
  | .num n => toString n
  | .bool b => if b then "True" else "False"
  | .arr _ => "[...]"
  | .obj _ => "[...]"

/-- Python `str.strip()`: drop whitespace from both ends (pandas
`.str.strip()` applies it elementwise).  Defined over the character list:
same observable behaviour as `String.trim`, but kernel-computable. -/
def pyStrip (s : String) : String :=
  ⟨((s.data.dropWhile Char.isWhitespace).reverse.dropWhile Char.isWhitespace).reverse⟩

/-- One row of the input sheet.  `addr` is the `FullAddress` cell; the other
four fields are the result cells, meaningful only when the corresponding
column exists in the sheet. -/
structure SheetRow where
  addr : Json
  lat : Json
  lon : Json
  mstatus : Json
  conf : Json

/-- The input sheet: which columns are present, and the rows. -/
structure Sheet where
  hasAddr : Bool
  hasLat : Bool
  hasLon : Bool
  hasStatus : Bool
  hasConf : Bool
  rows : List SheetRow

/-- A row of the loaded DataFrame after `load_locations`: result columns
guaranteed present and `_rowid` assigned. -/
structure Row where
  rowid : Nat
  addr : Json
  lat : Json
  lon : Json
  mstatus : Json
  conf : Json

/-- `if col not in df.columns: df[col] = ''` — a missing result column is
created filled with the empty string (note: NOT NaN). -/
def ensureCol (present : Bool) (v : Json) : Json :=
  if present then v else .str ""

/-- `df['_rowid'] = range(len(df))` together with the column creation:
number the rows positionally starting at `i`. -/
def numberRows (s : Sheet) : Nat → List SheetRow → List Row
  | _, [] => []
  | i, r :: rs =>
    ⟨i, r.addr, ensureCol s.hasLat r.lat, ensureCol s.hasLon r.lon,
     ensureCol s.hasStatus r.mstatus, ensureCol s.hasConf r.conf⟩ :: numberRows s (i + 1) rs

/-- The filter `df[ADDR_COL].astype(str).str.strip() != ''`. -/
def eligible (r : Row) : Bool :=
  pyStrip (astypeStr r.addr) != ""

/-- Error kinds of the run, one per `raise` site of the script (spec names in
parentheses): missing key (`ConfigError`), missing address column
(`SchemaError`), HTTP failure (`TransportError`), poll timeout
(`PollTimeoutError`), provider-reported failure (`BatchFailedError`), result
length mismatch (`ResultCountMismatchError`), and an unhandled Python
exception (`crash`). -/
inductive MainErr where
  | config
  | schema
  | transport (code : Nat)
  | pollTimeout
  | batchFailed (body : Json)
  | mismatch
  | crash

/-- `load_locations` (lines 63-73): check the address column, create missing
result columns as `''`, assign `_rowid`, and filter the eligible rows. -/
def load_locations (s : Sheet) : Except MainErr (List Row × List Row) :=
  if s.hasAddr then
    let df := numberRows s 0 s.rows
    .ok (df, df.filter eligible)
  else
    .error .schema

/-- One entry of the `batchItems` request payload. -/
structure GeocodeRequest where
  query : String
  countrySet : String

def COUNTRY_SET : String := "US"

/-- `build_batch_requests` (lines 76-85). -/
def build_batch_requests (rows : List Row) : List GeocodeRequest :=
  rows.map (fun r => ⟨pyStrip (astypeStr r.addr), COUNTRY_SET⟩)

/-! ## Continuation-URL parameter merge (`_merge_params_into_url`, lines 107-118) -/

/-- A URL, split as `urlparse` does: everything except the query string is
left untouched by the merge and is modelled opaquely by `rest`; the query
string is the ordered key-value list that `parse_qsl`/`urlencode` round-trip. -/
structure Url where
  rest : String
  query : List (String × String)

/-- One step of Python `dict(...)` construction from a pair list: an existing
key keeps its position and takes the new value, a new key is appended. -/
def dictInsert (acc : List (String × String)) (kv : String × String) :
    List (String × String) :=
  if acc.any (fun p => p.1 == kv.1) then
    acc.map (fun p => if p.1 == kv.1 then (p.1, kv.2) else p)
  else
    acc ++ [kv]

/-- `dict(parse_qsl(parsed.query, keep_blank_values=True))`. -/
def pyDict (l : List (String × String)) : List (String × String) :=
  l.foldl dictInsert []

/-- `if k not in q: q[k] = v` — insert only the missing keys. -/
def addIfMissing (acc : List (String × String)) (kv : String × String) :
    List (String × String) :=
  if acc.any (fun p => p.1 == kv.1) then acc else acc ++ [kv]

/-- `_merge_params_into_url` (lines 107-118). -/
def merge_params_into_url (u : Url) (extra : List (String × String)) : Url :=
  ⟨u.rest, extra.foldl addIfMissing (pyDict u.query)⟩

/-! ## Polling (`poll_batch`, lines 121-188)

The network is a mock stream of responses indexed by the poll tick.  Elapsed
wall-clock time is the accumulated sleep seconds (HTTP calls are modelled as
instantaneous); the fuel argument only bounds the recursion depth — the
termination theorem shows a fuel of `timeout + 1` is never exhausted. -/

/-- One mock response to a poll GET: HTTP status, the `Retry-After` header if
present, and the body (`none` when `r.json()` raises). -/
structure PollResponse where
  status : Nat
  retryAfter : Option String
  body : Option Json

/-- `max(poll_interval, int(retry_after) if retry_after and retry_after.isdigit()
else poll_interval)` (lines 142 and 172). -/
def retrySleep (pollInterval : Nat) (h : Option String) : Nat :=
  max pollInterval
    (match h with
     | some s => if s != "" && s.data.all Char.isDigit then s.toNat?.getD pollInterval
                 else pollInterval
     | none => pollInterval)

/-- `(data.get('summary', {}) or {}).get('state') or data.get('status')`
(line 167); `none` models the crash when `data` is not a dict or `summary`
is a truthy non-dict. -/
def pollState (data : Json) : Option Json := do
  let s0 ← data.getD "summary" (.obj [])
  let s1 := if s0.truthy then s0 else .obj []
  let st ← s1.get? "state"
  if st.truthy then
    pure st
  else
    data.get? "status"

def isRunningState (st : Json) : Bool :=
  jeqStr st "Running" || jeqStr st "Pending" || jeqStr st "InProgress"

def isDoneState (st : Json) : Bool :=
  jeqStr st "Succeeded" || jeqStr st "Completed"

def isFailedState (st : Json) : Bool :=
  jeqStr st "Failed" || jeqStr st "Error"

/-- How the poll loop ends: a ready body, or one of the failure raises. -/
inductive PollOutcome where
  | ready (body : Json)
  | failed (e : MainErr)

/-- `poll_batch` (lines 121-188) over the mock stream.  Arguments after the
configuration: fuel, current tick index, elapsed seconds, sleeps performed so
far.  Returns the outcome together with the total number of `time.sleep`
calls; `none` is fuel exhaustion (shown unreachable for enough fuel).  Note
the source sleeps first and only then checks the timeout, so the sleep
counter is incremented on the timeout branches as well. -/
def poll_batch (stream : Nat → PollResponse) (pollInterval timeout : Nat) :
    Nat → Nat → Nat → Nat → Option (PollOutcome × Nat)
  | 0, _, _, _ => none
  | fuel + 1, k, elapsed, sleeps =>
    if (stream k).status == 202 then
      -- 202: still running; honor Retry-After, sleep at most 15s per tick
      if elapsed + min (retrySleep pollInterval (stream k).retryAfter) 15 > timeout then
        some (.failed .pollTimeout, sleeps + 1)
      else
        poll_batch stream pollInterval timeout fuel (k + 1)
          (elapsed + min (retrySleep pollInterval (stream k).retryAfter) 15) (sleeps + 1)
    else if 400 ≤ (stream k).status then
      -- r.raise_for_status()
      some (.failed (.transport (stream k).status), sleeps)
    else
      match (stream k).body with
      | none =>
        -- not JSON: short fixed sleep, retry
        if elapsed + 3 > timeout then some (.failed .pollTimeout, sleeps + 1)
        else poll_batch stream pollInterval timeout fuel (k + 1) (elapsed + 3) (sleeps + 1)
      | some data =>
        if data.hasKey "batchItems" then
          some (.ready data, sleeps)
        else
          match pollState data with
          | none => some (.failed .crash, sleeps)
          | some st =>
            if isRunningState st then
              if elapsed + min (retrySleep pollInterval (stream k).retryAfter) 15 > timeout then
                some (.failed .pollTimeout, sleeps + 1)
              else
                poll_batch stream pollInterval timeout fuel (k + 1)
                  (elapsed + min (retrySleep pollInterval (stream k).retryAfter) 15) (sleeps + 1)
            else if isDoneState st then
              some (.ready data, sleeps)
            else if isFailedState st then
              some (.failed (.batchFailed data), sleeps)
            else
              if elapsed + 3 > timeout then some (.failed .pollTimeout, sleeps + 1)
              else poll_batch stream pollInterval timeout fuel (k + 1) (elapsed + 3) (sleeps + 1)

/-! ## Result merge (`main`, lines 235-275) -/

/-- `chunk = to_geocode.iloc[i*BATCH_SIZE : min((i+1)*BATCH_SIZE, n)]` for
`i in range(ceil(n / BATCH_SIZE))`. -/
def chunksOf (B : Nat) (l : List α) : List (List α) :=
  (List.range ((l.length + B - 1) / B)).map (fun i => (l.drop (i * B)).take B)

/-- `results = parse_results(batch_json)` followed by the length check of
lines 252-253 (`ResultCountMismatchError`). -/
def processChunk (chunk : List Row) (body : Json) : Except MainErr (List ParsedRec) :=
  match parse_results body with
  | none => .error .crash
  | some results =>
    if results.length != chunk.length then .error .mismatch else .ok results

/-- A row of `geocoded[['_rowid', LAT_COL, LON_COL, STATUS_COL, CONF_COL]]`:
the slice of the positionally-overwritten copy of `to_geocode` that enters the
pandas merge.  `rowid = none` models a NaN `_rowid` (the rows `at`-enlargement
appends when more results than rows exist). -/
structure GRow where
  rowid : Option Nat
  lat : Json
  lon : Json
  mstatus : Json
  conf : Json

/-- The rows that `at`-enlargement appends when there are more results than
rows: every cell NaN except the four just-assigned result cells. -/
def enlargeRows : List ParsedRec → List GRow
  | [] => []
  | p :: ps => ⟨none, p.lat, p.lon, p.status, p.confidence⟩ :: enlargeRows ps

/-- Lines 259-264: `geocoded.at[idx, col] = r[col]` for each result index.
Rows beyond the results keep their original values; results beyond the rows
enlarge the frame with NaN-`_rowid` rows. -/
def applyResults : List Row → List ParsedRec → List GRow
  | [], ps => enlargeRows ps
  | r :: rs, [] => ⟨some r.rowid, r.lat, r.lon, r.mstatus, r.conf⟩ :: applyResults rs []
  | r :: rs, p :: ps => ⟨some r.rowid, p.lat, p.lon, p.status, p.confidence⟩ :: applyResults rs ps

/-- A merged output row after the `_new` fill and the `_rowid`/`_new` column
drops (lines 271-275): the address plus the four result columns. -/
structure OutRow where
  addr : Json
  lat : Json
  lon : Json
  mstatus : Json
  conf : Json

/-- `pd.notna` on a cell: NaN/None cells are the only NA values — the empty
string is NOT NA. -/
def notna : Json → Bool
  | .null => false
  | _ => true

/-- `merged[col] = merged[col].where(merged[col].notna(), merged[col_new])`
(line 272) for one cell. -/
def fillCol (old new : Json) : Json :=
  if notna old then old else new

/-- Build one output row from a left row and its (optional) merge partner:
an absent partner contributes NaN `_new` cells, as a left merge does. -/
def joinFill (r : Row) (g : Option GRow) : OutRow :=
  match g with
  | some gr => ⟨r.addr, fillCol r.lat gr.lat, fillCol r.lon gr.lon,
                fillCol r.mstatus gr.mstatus, fillCol r.conf gr.conf⟩
  | none => ⟨r.addr, fillCol r.lat .null, fillCol r.lon .null,
             fillCol r.mstatus .null, fillCol r.conf .null⟩

/-- `df.merge(geocoded[...], on='_rowid', how='left', suffixes=('', '_new'))`
followed by the `where`-fill and column drops: each left row is paired with
every right row of equal non-NaN `_rowid` (NaN keys never match), or with an
all-NaN partner if there is none. -/
def mergeLeft (df : List Row) (g : List GRow) : List OutRow :=
  df.flatMap (fun r =>
    let ms := g.filter (fun x => x.rowid == some r.rowid)
    if ms.isEmpty then [joinFill r none]
    else ms.map (fun gr => joinFill r (some gr)))

/-- Lines 259-275 as one function: position the accumulated results on
`to_geocode`, left-merge onto the full table, fill the NA cells. -/
def merge_and_fill (df to_geo : List Row) (res : List ParsedRec) : List OutRow :=
  mergeLeft df (applyResults to_geo res)

/-! ## The main flow (`main`, lines 226-284) -/

/-- Externally observable side effects of a run: how many batch network
round-trips (`submit_batch` + its polling) were started, whether the backup
file was written, whether the workbook was overwritten. -/
structure Effects where
  netCalls : Nat
  backedUp : Bool
  wrote : Bool

/-- The per-batch loop of `main` (lines 240-256).  `net i` abstracts
`submit_batch` + `poll_batch` for batch `i`: it yields the ready body or the
error that run raised.  Returns the accumulated results and the number of
batches for which network activity was started. -/
def runLoop (net : Nat → Except MainErr Json) (tg : List Row) (B : Nat) :
    List Nat → Except MainErr (List ParsedRec) × Nat
  | [] => (.ok [], 0)
  | i :: is =>
    let chunk := (tg.drop (i * B)).take B
    match net i with
    | .error e => (.error e, 1)
    | .ok body =>
      match processChunk chunk body with
      | .error e => (.error e, 1)
      | .ok res =>
        match runLoop net tg B is with
        | (.ok rest, c) => (.ok (res ++ rest), c + 1)
        | (.error e, c) => (.error e, c + 1)

/-- `main` (lines 226-284).  The returned value is `none` when the run exits
early at `to_geocode.empty` (nothing written), `some merged` when the merged
table is written back.  The backup happens only after every batch succeeded
(line 278). -/
def runMain (key : Option String) (s : Sheet) (B : Nat)
    (net : Nat → Except MainErr Json) :
    Except MainErr (Option (List OutRow)) × Effects :=
  match key with
  | none => (.error .config, ⟨0, false, false⟩)
  | some _ =>
    match load_locations s with
    | .error e => (.error e, ⟨0, false, false⟩)
    | .ok (df, to_geo) =>
      if to_geo.isEmpty then
        (.ok none, ⟨0, false, false⟩)
      else
        match runLoop net to_geo B (List.range ((to_geo.length + B - 1) / B)) with
        | (.error e, c) => (.error e, ⟨c, false, false⟩)
        | (.ok allResults, c) =>
          (.ok (some (merge_and_fill df to_geo allResults)), ⟨c, true, true⟩)

/-! ## Spec-side definitions (for refinement comparisons)

These two are written from the words of the spec/claims, not from the source,
and are compared with the source-derived `parseItem`. -/

/-- Modelled from the claim's words: a status label that is the first
DEFINED (present and non-null) of the explicit type, the entity type, or the
literal Matched. -/
def firstDefinedStatus (t et : Json) : Json :=
  if notna t then t else if notna et then et else .str "Matched"

/-- The amended rule actually implemented by the source: the first TRUTHY
(present, non-null, non-empty) of the explicit type, the entity type, or the
literal Matched — Python `or` falls through falsy values such as the empty
string, not only null/absent ones. -/
def firstTruthyStatus (t et : Json) : Json :=
  if t.truthy then t else if et.truthy then et else .str "Matched"

/-! ## Concrete inputs used by counterexamples, scenarios and witnesses -/

/-- A sheet whose result columns are all absent, one geocodable row.  This is
the script's documented primary use case (a fresh geocode-ready workbook). -/
def c1sheet : Sheet :=
  ⟨true, false, false, false, false, [⟨.str "1 Main St", .null, .null, .null, .null⟩]⟩

/-- A successful geocode result for the single row of `c1sheet`. -/
def c1res : List ParsedRec :=
  [⟨.num 47, .num (-122), .str "Matched", .num 1⟩]

/-- A sheet whose single row has a missing (NaN) address cell. -/
def c8sheet : Sheet :=
  ⟨true, true, true, true, true, [⟨.null, .null, .null, .null, .null⟩]⟩

/-- The 3-row scenario sheet: addresses `1 Main St`, the empty string,
`2 Oak Ave`. -/
def c9sheet : Sheet :=
  ⟨true, true, true, true, true,
   [⟨.str "1 Main St", .null, .null, .null, .null⟩,
    ⟨.str "", .null, .null, .null, .null⟩,
    ⟨.str "2 Oak Ave", .null, .null, .null, .null⟩]⟩

/-- A best match whose `type` is present but the empty string, with a
non-empty `entityType`. -/
def c7best : Json := .obj [("type", .str ""), ("entityType", .str "POI")]

/-- A ready body with one entry whose best match is `c7best`. -/
def c7body : Json :=
  .obj [("batchItems", .arr [.obj [("response", .obj [("results", .arr [c7best])])]])]

/-- The single entry of `c7body`. -/
def c7item : Json := .obj [("response", .obj [("results", .arr [c7best])])]

/-- A ready body of the poll scenario: `200` with `batchItems` embedded. -/
def c4body : Json :=
  .obj [("batchItems", .arr [.obj [("response", .obj [("results", .arr [])])]])]

/-- The mock poll sequence [202, 202, 200-with-batchItems], constant
afterwards. -/
def c4stream : Nat → PollResponse := fun n =>
  match n with
  | 0 => ⟨202, none, none⟩
  | 1 => ⟨202, none, none⟩
  | _ => ⟨200, none, some c4body⟩

/-- A mock stream that is immediately ready: every response is a `200` with
`batchItems` embedded. -/
def w4stream : Nat → PollResponse := fun _ => ⟨200, none, some c4body⟩

/-- A mock stream that is never ready: every response is a bare `202`. -/
def w5stream : Nat → PollResponse := fun _ => ⟨202, none, none⟩

/-- A single-row sheet used by witnesses: one geocodable address and a
previously-set latitude. -/
def wsheet : Sheet :=
  ⟨true, true, true, true, true, [⟨.str "1 Main St", .num 10, .null, .null, .null⟩]⟩

/-- The DataFrame `load_locations wsheet` produces (both the full table and
the eligible subset, here equal). -/
def wdf : List Row :=
  [⟨0, .str "1 Main St", .num 10, .null, .null, .null⟩]

/-- A sheet whose single row has a whitespace-only address: nothing to
geocode. -/
def c10sheet : Sheet :=
  ⟨true, true, true, true, true, [⟨.str "   ", .null, .null, .null, .null⟩]⟩

/-- A ready body with exactly one entry (empty best-match list). -/
def w3body : Json :=
  .obj [("batchItems", .arr [.obj [("response", .obj [("results", .arr [])])]])]

/-- A concrete continuation URL query: `api-version` already present. -/
def w6url : Url := ⟨"https://atlas.microsoft.com/batch/poll", [("api-version", "2.0")]⟩

/-- The parameters `poll_batch` injects (lines 132-135). -/
def w6extra : List (String × String) :=
  [("api-version", "1.0"), ("subscription-key", "KEY")]

/-! ## Helper lemmas -/

theorem load_locations_ok (s : Sheet) (hA : s.hasAddr = true) :
    load_locations s =
      .ok (numberRows s 0 s.rows, (numberRows s 0 s.rows).filter eligible) := by
  simp [load_locations, hA]

/-! ## Claims -/

/-- C1: the merge step is claimed to overwrite a previously-empty/unset result
cell with the new value.  The code only overwrites NA (NaN/None) cells: a cell
holding the empty string — exactly what `load_locations` itself puts into a
result column it has to create — is `notna` and is therefore kept, silently
discarding every newly parsed value.  On `c1sheet` (no pre-existing result
columns, one geocodable row) with the successful result `c1res`, the merged
row still carries `''` in all four result columns instead of the parsed
values. -/
theorem C1_empty_string_cells_never_overwritten :
    (load_locations c1sheet).map (fun p => merge_and_fill p.1 p.2 c1res) =
      .ok [⟨Json.str "1 Main St", Json.str "", Json.str "", Json.str "", Json.str ""⟩] ∧
    c1res = [⟨Json.num 47, Json.num (-122), Json.str "Matched", Json.num 1⟩] ∧
    notna (Json.str "") = true :=
  ⟨rfl, rfl, rfl⟩

/-- C8 (counterexample): the claim says a row with a missing address is
excluded from the eligible subset.  A missing (NaN) cell stringifies to the
literal `"nan"` under `astype(str)`, which is non-empty after stripping, so
the row IS included: on `c8sheet` (one row, address cell missing) the
eligible subset has 1 row, not 0. -/
theorem C8_missing_address_included :
    (load_locations c8sheet).map (fun p => p.2.length) = .ok 1 ∧
    astypeStr Json.null = "nan" :=
  ⟨rfl, rfl⟩

/-- C8 (amended): a row is submitted for geocoding iff the `str()` conversion
of its address cell — a missing cell converting to the literal `"nan"` —
strips to a non-empty string; in particular rows with a missing address are
included, not excluded. -/
theorem C8_eligible_iff (s : Sheet) (df tg : List Row)
    (h : load_locations s = .ok (df, tg)) (r : Row) :
    r ∈ tg ↔ r ∈ df ∧ pyStrip (astypeStr r.addr) ≠ "" := by
  unfold load_locations at h
  by_cases hA : s.hasAddr = true
  · rw [if_pos hA] at h
    injection h with h
    have h1 : numberRows s 0 s.rows = df := congrArg Prod.fst h
    have h2 : (numberRows s 0 s.rows).filter eligible = tg := congrArg Prod.snd h
    subst h1
    subst h2
    simp [List.mem_filter, eligible]
  · rw [if_neg hA] at h
    exact absurd h (by simp)

/-- C8 witness: the `1 Main St` row of `wsheet` is eligible. -/
theorem C8_eligible_iff_witness :
    (⟨0, Json.str "1 Main St", Json.num 10, Json.null, Json.null, Json.null⟩ : Row) ∈ wdf :=
  (C8_eligible_iff wsheet wdf wdf rfl _).mpr ⟨List.mem_singleton.mpr rfl, by decide⟩

/-- C3: the per-batch length check.  Whenever the per-batch step succeeds, the
number of parsed records equals the number of requests built for the chunk;
whenever the parsed records exist but their number differs, the step fails
with the result-count-mismatch error. -/
theorem C3_result_count_checked (chunk : List Row) (body : Json) :
    (∀ res, processChunk chunk body = .ok res →
        res.length = (build_batch_requests chunk).length) ∧
    (∀ res, parse_results body = some res →
        res.length ≠ (build_batch_requests chunk).length →
        processChunk chunk body = .error .mismatch) := by
  constructor
  · intro res h
    cases hp : parse_results body with
    | none => simp [processChunk, hp] at h
    | some r =>
      simp only [processChunk, hp] at h
      by_cases hb : (r.length != chunk.length) = true
      · simp [hb] at h
      · simp only [hb, Bool.false_eq_true, if_false, if_neg] at h
        injection h with h
        subst h
        simp only [bne_iff_ne, ne_eq, not_not] at hb
        simp [build_batch_requests, hb]
  · intro res hp hne
    have hb : (res.length != chunk.length) = true := by
      simp only [build_batch_requests, List.length_map] at hne
      simpa [bne_iff_ne] using hne
    simp [processChunk, hp, hb]

/-- C3 witness: a one-entry body against the one-row chunk `wdf`. -/
theorem C3_result_count_checked_witness :
    ([⟨Json.null, Json.null, Json.str "No Match", Json.null⟩] : List ParsedRec).length =
      (build_batch_requests wdf).length :=
  (C3_result_count_checked wdf w3body).1 _ rfl

/-- C7 (counterexample): the claim labels the status as the first DEFINED of
`type` and `entityType`.  On `c7best` the `type` field is defined (present,
non-null) but is the empty string; the code's Python `or` chain falls through
to `entityType`, producing `POI` where the claim predicts `""`. -/
theorem C7_first_defined_refuted :
    (parse_results c7body).map (List.map ParsedRec.status) = some [Json.str "POI"] ∧
    c7best.get? "type" = some (Json.str "") ∧
    c7best.get? "entityType" = some (Json.str "POI") ∧
    firstDefinedStatus (Json.str "") (Json.str "POI") = Json.str "" ∧
    Json.str "POI" ≠ Json.str "" := by
  refine ⟨rfl, rfl, rfl, rfl, fun h => ?_⟩
  injection h with h
  exact absurd h (by decide)

/-- C7 (amended): per entry of the results collection, a non-empty nested
best-match list yields the first match's position lat/lon (possibly null), a
status that is the first TRUTHY of explicit type and entity type (a present
but falsy value such as the empty string falls through) else `Matched`, and a
nullable confidence; an empty nested list yields exactly
`{lat: null, lon: null, status: No Match, confidence: null}`. -/
theorem C7_best_match_parse (item resp : Json)
    (h1 : item.get? "response" = some resp) (h2 : resp.truthy = true) :
    (∀ best tail pos lat lon t et sc,
        resp.get? "results" = some (.arr (best :: tail)) →
        best.getD "position" (.obj []) = some pos →
        pos.get? "lat" = some lat →
        pos.get? "lon" = some lon →
        best.get? "type" = some t →
        best.get? "entityType" = some et →
        best.get? "score" = some sc →
        parseItem item = some ⟨lat, lon, firstTruthyStatus t et, sc⟩) ∧
    (resp.get? "results" = some (.arr []) →
        parseItem item = some ⟨.null, .null, .str "No Match", .null⟩) := by
  constructor
  · intro best tail pos lat lon t et sc hres hpos hlat hlon ht het hsc
    unfold parseItem
    rw [h1]
    simp only [Option.bind_eq_bind, Option.some_bind]
    rw [if_pos h2, hres]
    simp only [Option.bind_eq_bind, Option.some_bind]
    simp only [Json.truthy, List.isEmpty_cons, Bool.not_false, eq_self_iff_true, if_true]
    rw [hpos]
    simp only [Option.bind_eq_bind, Option.some_bind]
    rw [hlat]
    simp only [Option.bind_eq_bind, Option.some_bind]
    rw [hlon]
    simp only [Option.bind_eq_bind, Option.some_bind]
    rw [ht]
    simp only [Option.bind_eq_bind, Option.some_bind]
    rw [het]
    simp only [Option.bind_eq_bind, Option.some_bind]
    rw [hsc]
    simp only [Option.bind_eq_bind, Option.some_bind]
    rfl
  · intro hres
    unfold parseItem
    rw [h1]
    simp only [Option.bind_eq_bind, Option.some_bind]
    rw [if_pos h2, hres]
    simp only [Option.bind_eq_bind, Option.some_bind]
    simp [Json.truthy]

/-- C7 witness: the amended rule applied to `c7item` yields the `POI`
status. -/
theorem C7_best_match_parse_witness :
    parseItem c7item = some ⟨Json.null, Json.null, Json.str "POI", Json.null⟩ :=
  (C7_best_match_parse c7item (.obj [("results", .arr [c7best])]) rfl rfl).1
    c7best [] (.obj []) .null .null (.str "") (.str "POI") .null
    rfl rfl rfl rfl rfl rfl rfl

theorem retrySleep_ge (pi : Nat) (h : Option String) : pi ≤ retrySleep pi h := by
  unfold retrySleep
  exact Nat.le_max_left _ _

theorem sleep_pos (pi : Nat) (h : Option String) (hpi : 1 ≤ pi) :
    1 ≤ min (retrySleep pi h) 15 := by
  have := retrySleep_ge pi h
  omega

/-- C4: a parsed (non-202, non-error-status) response whose body is a dict
containing `batchItems` makes the poll loop return READY with that body at
once, whatever the state fields say; on the mock sequence [202, 202,
200-with-batchItems] the loop sleeps exactly twice and then returns the body
with the embedded items. -/
theorem C4_batchitems_ready (stream : Nat → PollResponse)
    (pi timeout fuel k elapsed sleeps : Nat) (d : Json)
    (hbody : (stream k).body = some d)
    (h202 : (stream k).status ≠ 202)
    (hok : (stream k).status < 400)
    (hkey : d.hasKey "batchItems" = true) :
    poll_batch stream pi timeout (fuel + 1) k elapsed sleeps = some (.ready d, sleeps) ∧
    poll_batch c4stream 2 1800 1801 0 0 0 = some (.ready c4body, 2) := by
  refine ⟨?_, rfl⟩
  rw [poll_batch]
  have h1 : ((stream k).status == 202) = false := by
    simp [h202]
  simp only [h1, Bool.false_eq_true, if_false]
  rw [if_neg (by omega : ¬ 400 ≤ (stream k).status), hbody]
  simp [hkey]

/-- C4 witness: an immediately-ready stream returns the body with zero
sleeps. -/
theorem C4_batchitems_ready_witness :
    poll_batch w4stream 2 1800 1 0 0 0 = some (.ready c4body, 0) :=
  (C4_batchitems_ready w4stream 2 1800 0 0 0 0 c4body rfl (by decide) (by decide) rfl).1

/-- C5: the poll loop terminates on every mock response stream.  Every
non-terminal iteration sleeps at least one second (given a positive poll
interval) and the loop raises the timeout error once the elapsed time passes
the ceiling, so a recursion budget of `timeout + 1` ticks beyond the elapsed
time is never exhausted: the loop always produces an outcome — a ready body
or one of the raised errors (transport, provider-reported failure, timeout,
or an unhandled crash). -/
theorem C5_poll_terminates (stream : Nat → PollResponse) (pi timeout : Nat)
    (fuel k elapsed sleeps : Nat)
    (hpi : 1 ≤ pi) (he : elapsed ≤ timeout) (hfuel : timeout + 1 ≤ elapsed + fuel) :
    (poll_batch stream pi timeout fuel k elapsed sleeps).isSome = true := by
  induction fuel generalizing k elapsed sleeps with
  | zero => omega
  | succ fuel ih =>
    rw [poll_batch]
    have hs : 1 ≤ min (retrySleep pi (stream k).retryAfter) 15 := sleep_pos _ _ hpi
    by_cases h202 : ((stream k).status == 202) = true
    · simp only [h202, if_true]
      by_cases ht : elapsed + min (retrySleep pi (stream k).retryAfter) 15 > timeout
      · rw [if_pos ht]
        rfl
      · rw [if_neg ht]
        exact ih (k + 1) _ (sleeps + 1) (by omega) (by omega)
    · have h202f : ((stream k).status == 202) = false := by
        revert h202
        cases (stream k).status == 202 <;> simp
      simp only [h202f, Bool.false_eq_true, if_false]
      by_cases h400 : 400 ≤ (stream k).status
      · rw [if_pos h400]
        rfl
      · rw [if_neg h400]
        cases hb : (stream k).body with
        | none =>
          by_cases ht : elapsed + 3 > timeout
          · rw [if_pos ht]
            rfl
          · rw [if_neg ht]
            exact ih (k + 1) _ (sleeps + 1) (by omega) (by omega)
        | some data =>
          by_cases hkey : data.hasKey "batchItems" = true
          · simp [hkey]
          · have hkeyf : data.hasKey "batchItems" = false := by
              revert hkey
              cases data.hasKey "batchItems" <;> simp
            simp only [hkeyf, Bool.false_eq_true, if_false]
            cases hst : pollState data with
            | none => rfl
            | some st =>
              by_cases hr : isRunningState st = true
              · simp only [hr, if_true]
                by_cases ht : elapsed + min (retrySleep pi (stream k).retryAfter) 15 > timeout
                · rw [if_pos ht]
                  rfl
                · rw [if_neg ht]
                  exact ih (k + 1) _ (sleeps + 1) (by omega) (by omega)
              · have hrf : isRunningState st = false := by
                  revert hr
                  cases isRunningState st <;> simp
                simp only [hrf, Bool.false_eq_true, if_false]
                by_cases hd : isDoneState st = true
                · simp [hd]
                · have hdf : isDoneState st = false := by
                    revert hd
                    cases isDoneState st <;> simp
                  simp only [hdf, Bool.false_eq_true, if_false]
                  by_cases hf : isFailedState st = true
                  · simp [hf]
                  · have hff : isFailedState st = false := by
                      revert hf
                      cases isFailedState st <;> simp
                    simp only [hff, Bool.false_eq_true, if_false]
                    by_cases ht : elapsed + 3 > timeout
                    · rw [if_pos ht]
                      rfl
                    · rw [if_neg ht]
                      exact ih (k + 1) _ (sleeps + 1) (by omega) (by omega)

/-- C5 witness: a never-ready stream with the default 2s interval and a 5s
ceiling terminates within 6 ticks. -/
theorem C5_poll_terminates_witness :
    (poll_batch w5stream 2 5 6 0 0 0).isSome = true :=
  C5_poll_terminates w5stream 2 5 6 0 0 0 (by decide) (by decide) (by decide)

theorem ceil_div_succ_aux (B n k : Nat) (hB : 1 ≤ B)
    (h : (n + B - 1) / B = k + 1) : (n - B + B - 1) / B = k := by
  rcases Nat.lt_or_ge n B with hlt | hge
  · have hn : 1 ≤ n := by
      by_contra hn
      have hn0 : n = 0 := by omega
      rw [hn0, Nat.div_eq_of_lt (by omega)] at h
      omega
    rw [show n + B - 1 = (n - 1) + B by omega, Nat.add_div_right _ (by omega)] at h
    rw [Nat.div_eq_of_lt (by omega)] at h
    rw [show n - B + B - 1 = B - 1 by omega, Nat.div_eq_of_lt (by omega)]
    omega
  · rw [show n + B - 1 = (n - 1) + B by omega, Nat.add_div_right _ (by omega)] at h
    rw [show n - B + B - 1 = n - 1 by omega]
    omega

theorem chunksOf_flatten {α : Type} (B : Nat) (hB : 1 ≤ B) :
    ∀ (k : Nat) (l : List α), (l.length + B - 1) / B = k → (chunksOf B l).flatten = l := by
  intro k
  induction k with
  | zero =>
    intro l h
    have hlt : l.length + B - 1 < B := (Nat.div_eq_zero_iff (by omega)).mp h
    have hlen : l.length = 0 := by omega
    have : l = [] := List.length_eq_zero.mp hlen
    subst this
    simp [chunksOf]
  | succ k ih =>
    intro l h
    unfold chunksOf
    rw [h, List.range_succ_eq_map, List.map_cons, List.map_map, List.flatten_cons]
    have htail : (List.range k).map ((fun i => (l.drop (i * B)).take B) ∘ Nat.succ) =
        chunksOf B (l.drop B) := by
      unfold chunksOf
      rw [List.length_drop, ceil_div_succ_aux B l.length k hB h]
      refine List.map_congr_left ?_
      intro i _
      simp only [Function.comp_apply]
      rw [List.drop_drop, Nat.succ_mul, Nat.add_comm (i * B) B]
    rw [Nat.zero_mul, List.drop_zero, htail,
      ih (l.drop B) (by rw [List.length_drop]; exact ceil_div_succ_aux B l.length k hB h)]
    exact List.take_append_drop B l

/-- C9: chunking splits the eligible subset into contiguous chunks of at most
`BATCH_SIZE` rows whose concatenation in chunk order is the original subset in
its original order; and on the 3-row scenario sheet with `BATCH_SIZE = 2` the
eligible subset is exactly the rows with `_rowid` 0 and 2, submitted as a
single batch of size 2. -/
theorem C9_chunking (B : Nat) (l : List Row) (hB : 1 ≤ B) :
    (chunksOf B l).flatten = l ∧
    (∀ c ∈ chunksOf B l, c.length ≤ B) ∧
    (load_locations c9sheet).map
        (fun p => (p.2.map Row.rowid, (chunksOf 2 p.2).map List.length)) =
      .ok ([0, 2], [2]) := by
  refine ⟨chunksOf_flatten B hB _ l rfl, ?_, rfl⟩
  intro c hc
  unfold chunksOf at hc
  rw [List.mem_map] at hc
  obtain ⟨i, _, rfl⟩ := hc
  rw [List.length_take]
  omega

/-- C9 witness: the singleton row list in batches of two. -/
theorem C9_chunking_witness : (chunksOf 2 wdf).flatten = wdf :=
  (C9_chunking 2 wdf (by decide)).1

theorem numberRows_length (s : Sheet) : ∀ (i : Nat) (l : List SheetRow),
    (numberRows s i l).length = l.length := by
  intro i l
  induction l generalizing i with
  | nil => rfl
  | cons r rs ih => simp [numberRows, ih]

theorem numberRows_rowid_ge (s : Sheet) : ∀ (l : List SheetRow) (i : Nat) (r : Row),
    r ∈ numberRows s i l → i ≤ r.rowid := by
  intro l
  induction l with
  | nil =>
    intro i r h
    simp [numberRows] at h
  | cons x xs ih =>
    intro i r h
    rw [numberRows] at h
    rcases List.mem_cons.mp h with h1 | h2
    · subst h1
      exact Nat.le_refl i
    · exact Nat.le_trans (Nat.le_succ i) (ih (i + 1) r h2)

theorem numberRows_rowid_nodup (s : Sheet) : ∀ (l : List SheetRow) (i : Nat),
    ((numberRows s i l).map Row.rowid).Nodup := by
  intro l
  induction l with
  | nil =>
    intro i
    simp [numberRows]
  | cons x xs ih =>
    intro i
    rw [numberRows, List.map_cons, List.nodup_cons]
    refine ⟨?_, ih (i + 1)⟩
    intro hmem
    rw [List.mem_map] at hmem
    obtain ⟨r, hr, hid⟩ := hmem
    have hge := numberRows_rowid_ge s xs (i + 1) r hr
    have : r.rowid = i := hid
    omega

theorem enlargeRows_countP (k : Nat) : ∀ (res : List ParsedRec),
    (enlargeRows res).countP (fun g => g.rowid == some k) = 0 := by
  intro res
  induction res with
  | nil => rfl
  | cons p ps ih =>
    have hnone : ((none : Option Nat) == some k) = false := rfl
    simp [enlargeRows, List.countP_cons, ih, hnone]

theorem applyResults_countP (k : Nat) : ∀ (rows : List Row) (res : List ParsedRec),
    (applyResults rows res).countP (fun g => g.rowid == some k) =
      rows.countP (fun r => r.rowid == k) := by
  intro rows
  induction rows with
  | nil =>
    intro res
    rw [applyResults, enlargeRows_countP, List.countP_nil]
  | cons r rs ih =>
    intro res
    have hsome : ∀ (a : Nat), ((some a : Option Nat) == some k) = (a == k) := fun _ => rfl
    cases res with
    | nil =>
      rw [applyResults, List.countP_cons, List.countP_cons, ih []]
      simp [hsome]
    | cons p ps =>
      rw [applyResults, List.countP_cons, List.countP_cons, ih ps]
      simp [hsome]

theorem countP_rowid_le_one (rows : List Row) (h : (rows.map Row.rowid).Nodup) (k : Nat) :
    rows.countP (fun r => r.rowid == k) ≤ 1 := by
  have h1 : rows.countP (fun r => r.rowid == k) =
      (rows.map Row.rowid).countP (fun x => x == k) := by
    rw [List.countP_map]
    rfl
  rw [h1]
  exact List.nodup_iff_count_le_one.mp h k

theorem mergeLeft_cons (r : Row) (rs : List Row) (g : List GRow) :
    mergeLeft (r :: rs) g =
      (if (g.filter (fun x => x.rowid == some r.rowid)).isEmpty then [joinFill r none]
       else (g.filter (fun x => x.rowid == some r.rowid)).map (fun gr => joinFill r (some gr)))
      ++ mergeLeft rs g := by
  unfold mergeLeft
  rw [List.flatMap_cons]

theorem mergeLeft_shape (df : List Row) (g : List GRow)
    (h : ∀ r ∈ df, (g.filter (fun x => x.rowid == some r.rowid)).length ≤ 1) :
    (mergeLeft df g).length = df.length ∧
    (mergeLeft df g).map OutRow.addr = df.map Row.addr := by
  induction df with
  | nil => exact ⟨rfl, rfl⟩
  | cons r rs ih =>
    have hr := h r (List.mem_cons_self r rs)
    obtain ⟨ihl, ihm⟩ := ih (fun x hx => h x (List.mem_cons_of_mem r hx))
    rw [mergeLeft_cons]
    cases hms : g.filter (fun x => x.rowid == some r.rowid) with
    | nil =>
      constructor
      · simp [ihl]
      · rw [List.map_append, ihm]
        rfl
    | cons a tail =>
      have htail : tail = [] := by
        rw [hms, List.length_cons] at hr
        have : tail.length = 0 := by omega
        exact List.eq_nil_of_length_eq_zero this
      subst htail
      constructor
      · simp [ihl]
      · rw [List.map_append, ihm]
        rfl

/-- C2: for every loaded sheet and every accumulated result list, the merge
step produces a table with exactly the row count of the original sheet, and
positionally the same rows (witnessed by the address column): no row is
duplicated or dropped. -/
theorem C2_merge_preserves (s : Sheet) (df tg : List Row) (res : List ParsedRec)
    (h : load_locations s = .ok (df, tg)) :
    (merge_and_fill df tg res).length = s.rows.length ∧
    (merge_and_fill df tg res).map OutRow.addr = df.map Row.addr := by
  unfold load_locations at h
  by_cases hA : s.hasAddr = true
  · rw [if_pos hA] at h
    injection h with h
    have h1 : numberRows s 0 s.rows = df := congrArg Prod.fst h
    have h2 : (numberRows s 0 s.rows).filter eligible = tg := congrArg Prod.snd h
    have hnd : (tg.map Row.rowid).Nodup := by
      rw [← h2]
      refine List.Nodup.sublist (List.Sublist.map Row.rowid (List.filter_sublist _)) ?_
      exact numberRows_rowid_nodup s s.rows 0
    have hcount : ∀ r ∈ df,
        ((applyResults tg res).filter (fun x => x.rowid == some r.rowid)).length ≤ 1 := by
      intro r _
      rw [← List.countP_eq_length_filter, applyResults_countP]
      exact countP_rowid_le_one tg hnd r.rowid
    obtain ⟨hl, hm⟩ := mergeLeft_shape df (applyResults tg res) hcount
    refine ⟨?_, hm⟩
    rw [merge_and_fill, hl, ← h1, numberRows_length]
  · rw [if_neg hA] at h
    exact absurd h (by simp)

/-- C2 witness: the one-row sheet `wsheet` with an empty result list. -/
theorem C2_merge_preserves_witness :
    (merge_and_fill wdf wdf []).length = wsheet.rows.length ∧
    (merge_and_fill wdf wdf []).map OutRow.addr = wdf.map Row.addr :=
  C2_merge_preserves wsheet wdf wdf [] rfl

theorem keys_dictInsert (acc : List (String × String)) (kv : String × String) :
    (dictInsert acc kv).map Prod.fst =
      if acc.any (fun p => p.1 == kv.1) then acc.map Prod.fst
      else acc.map Prod.fst ++ [kv.1] := by
  unfold dictInsert
  by_cases h : acc.any (fun p => p.1 == kv.1) = true
  · rw [if_pos h, if_pos h, List.map_map]
    refine List.map_congr_left ?_
    intro p _
    simp only [Function.comp_apply]
    split <;> rfl
  · rw [if_neg h, if_neg h, List.map_append]
    rfl

theorem nodup_dictInsert (acc : List (String × String)) (kv : String × String)
    (h : (acc.map Prod.fst).Nodup) : ((dictInsert acc kv).map Prod.fst).Nodup := by
  rw [keys_dictInsert]
  by_cases hc : acc.any (fun p => p.1 == kv.1) = true
  · rw [if_pos hc]
    exact h
  · rw [if_neg hc]
    have hnot : kv.1 ∉ acc.map Prod.fst := by
      intro hmem
      apply hc
      rw [List.mem_map] at hmem
      obtain ⟨p, hp, he⟩ := hmem
      exact List.any_eq_true.mpr ⟨p, hp, by simp [he]⟩
    rw [List.nodup_append_comm]
    exact List.nodup_cons.mpr ⟨hnot, h⟩

theorem nodup_foldl_dictInsert : ∀ (l acc : List (String × String)),
    (acc.map Prod.fst).Nodup → ((l.foldl dictInsert acc).map Prod.fst).Nodup := by
  intro l
  induction l with
  | nil => exact fun acc h => h
  | cons kv rest ih =>
    intro acc h
    rw [List.foldl_cons]
    exact ih _ (nodup_dictInsert acc kv h)

theorem pyDict_keys_nodup (l : List (String × String)) :
    ((pyDict l).map Prod.fst).Nodup :=
  nodup_foldl_dictInsert l [] List.nodup_nil

theorem nodup_addIfMissing (acc : List (String × String)) (kv : String × String)
    (h : (acc.map Prod.fst).Nodup) : ((addIfMissing acc kv).map Prod.fst).Nodup := by
  unfold addIfMissing
  by_cases hc : acc.any (fun p => p.1 == kv.1) = true
  · rw [if_pos hc]
    exact h
  · rw [if_neg hc, List.map_append]
    have hnot : kv.1 ∉ acc.map Prod.fst := by
      intro hmem
      apply hc
      rw [List.mem_map] at hmem
      obtain ⟨p, hp, he⟩ := hmem
      exact List.any_eq_true.mpr ⟨p, hp, by simp [he]⟩
    rw [List.nodup_append_comm]
    exact List.nodup_cons.mpr ⟨hnot, h⟩

theorem nodup_foldl_addIfMissing : ∀ (e acc : List (String × String)),
    (acc.map Prod.fst).Nodup → ((e.foldl addIfMissing acc).map Prod.fst).Nodup := by
  intro e
  induction e with
  | nil => exact fun acc h => h
  | cons kv rest ih =>
    intro acc h
    rw [List.foldl_cons]
    exact ih _ (nodup_addIfMissing acc kv h)

theorem hasK_addIfMissing (acc : List (String × String)) (kv : String × String) (k : String) :
    ((addIfMissing acc kv).any (fun p => p.1 == k)) =
      (acc.any (fun p => p.1 == k) || (kv.1 == k)) := by
  unfold addIfMissing
  by_cases hc : acc.any (fun p => p.1 == kv.1) = true
  · rw [if_pos hc]
    by_cases he : (kv.1 == k) = true
    · have hk : kv.1 = k := by simpa using he
      have : acc.any (fun p => p.1 == k) = true := by
        rw [← hk]
        exact hc
      rw [this, he]
      rfl
    · have hf : (kv.1 == k) = false := by
        revert he
        cases kv.1 == k <;> simp
      rw [hf, Bool.or_false]
  · rw [if_neg hc, List.any_append]
    simp

theorem hasK_foldl_addIfMissing : ∀ (e acc : List (String × String)) (k : String),
    ((e.foldl addIfMissing acc).any (fun p => p.1 == k)) =
      (acc.any (fun p => p.1 == k) || e.any (fun p => p.1 == k)) := by
  intro e
  induction e with
  | nil =>
    intro acc k
    simp
  | cons kv rest ih =>
    intro acc k
    rw [List.foldl_cons, ih, hasK_addIfMissing, List.any_cons, Bool.or_assoc]

theorem hasK_dictInsert (acc : List (String × String)) (kv : String × String) (k : String) :
    ((dictInsert acc kv).any (fun p => p.1 == k)) =
      (acc.any (fun p => p.1 == k) || (kv.1 == k)) := by
  unfold dictInsert
  by_cases hc : acc.any (fun p => p.1 == kv.1) = true
  · rw [if_pos hc]
    have hfun : ((fun (p : String × String) => p.1 == k) ∘
        (fun p => if p.1 == kv.1 then (p.1, kv.2) else p)) =
        (fun (p : String × String) => p.1 == k) := by
      funext p
      simp only [Function.comp_apply]
      split <;> rfl
    rw [List.any_map, hfun]
    by_cases he : (kv.1 == k) = true
    · have hk : kv.1 = k := by simpa using he
      have : acc.any (fun p => p.1 == k) = true := by
        rw [← hk]
        exact hc
      rw [this, he]
      rfl
    · have hf : (kv.1 == k) = false := by
        revert he
        cases kv.1 == k <;> simp
      rw [hf, Bool.or_false]
  · rw [if_neg hc, List.any_append]
    simp

theorem hasK_foldl_dictInsert : ∀ (l acc : List (String × String)) (k : String),
    ((l.foldl dictInsert acc).any (fun p => p.1 == k)) =
      (acc.any (fun p => p.1 == k) || l.any (fun p => p.1 == k)) := by
  intro l
  induction l with
  | nil =>
    intro acc k
    simp
  | cons kv rest ih =>
    intro acc k
    rw [List.foldl_cons, ih, hasK_dictInsert, List.any_cons, Bool.or_assoc]

theorem hasK_pyDict (l : List (String × String)) (k : String) :
    ((pyDict l).any (fun p => p.1 == k)) = l.any (fun p => p.1 == k) := by
  have := hasK_foldl_dictInsert l [] k
  simpa [pyDict] using this

theorem lookup_append_left (acc rest : List (String × String)) (k : String)
    (h : acc.any (fun p => p.1 == k) = true) :
    (acc ++ rest).lookup k = acc.lookup k := by
  induction acc with
  | nil => simp at h
  | cons p ps ih =>
    rw [List.cons_append]
    by_cases he : (k == p.1) = true
    · simp [List.lookup, he]
    · have hf : (k == p.1) = false := by
        revert he
        cases k == p.1 <;> simp
      simp only [List.lookup, hf]
      apply ih
      rw [List.any_cons] at h
      have hpf : (p.1 == k) = false := by
        rw [beq_eq_false_iff_ne] at hf ⊢
        exact fun hh => hf hh.symm
      rw [hpf, Bool.false_or] at h
      exact h

theorem lookup_addIfMissing (acc : List (String × String)) (kv : String × String) (k : String)
    (h : acc.any (fun p => p.1 == k) = true) :
    (addIfMissing acc kv).lookup k = acc.lookup k := by
  unfold addIfMissing
  by_cases hc : acc.any (fun p => p.1 == kv.1) = true
  · rw [if_pos hc]
  · rw [if_neg hc]
    exact lookup_append_left acc [kv] k h

theorem lookup_foldl_addIfMissing : ∀ (e acc : List (String × String)) (k : String),
    acc.any (fun p => p.1 == k) = true →
    (e.foldl addIfMissing acc).lookup k = acc.lookup k := by
  intro e
  induction e with
  | nil => exact fun acc k _ => rfl
  | cons kv rest ih =>
    intro acc k h
    rw [List.foldl_cons]
    have hk : (addIfMissing acc kv).any (fun p => p.1 == k) = true := by
      rw [hasK_addIfMissing, h, Bool.true_or]
    rw [ih _ k hk, lookup_addIfMissing acc kv k h]

theorem foldl_addIfMissing_absorbed : ∀ (e acc : List (String × String)),
    (∀ kv ∈ e, acc.any (fun p => p.1 == kv.1) = true) →
    e.foldl addIfMissing acc = acc := by
  intro e
  induction e with
  | nil => exact fun acc _ => rfl
  | cons kv rest ih =>
    intro acc h
    rw [List.foldl_cons]
    have h1 := h kv (List.mem_cons_self kv rest)
    have hstep : addIfMissing acc kv = acc := by
      unfold addIfMissing
      rw [if_pos h1]
    rw [hstep]
    exact ih acc (fun x hx => h x (List.mem_cons_of_mem _ hx))

theorem foldl_dictInsert_of_nodup : ∀ (l acc : List (String × String)),
    (((acc ++ l).map Prod.fst).Nodup) → l.foldl dictInsert acc = acc ++ l := by
  intro l
  induction l with
  | nil =>
    intro acc _
    rw [List.foldl_nil, List.append_nil]
  | cons kv rest ih =>
    intro acc h
    rw [List.foldl_cons]
    have hns : ¬ acc.any (fun p => p.1 == kv.1) = true := by
      intro hc
      rw [List.any_eq_true] at hc
      obtain ⟨p, hp, hpe⟩ := hc
      have hmem : kv.1 ∈ acc.map Prod.fst :=
        List.mem_map.mpr ⟨p, hp, by simpa using hpe⟩
      rw [List.map_append, List.map_cons, List.nodup_append] at h
      exact h.2.2 hmem (List.mem_cons_self _ _)
    have hstep : dictInsert acc kv = acc ++ [kv] := by
      unfold dictInsert
      rw [if_neg hns]
    rw [hstep, ih (acc ++ [kv]) (by rw [List.append_assoc]; simpa using h),
      List.append_assoc]
    rfl

theorem pyDict_of_nodup (l : List (String × String)) (h : (l.map Prod.fst).Nodup) :
    pyDict l = l := by
  have := foldl_dictInsert_of_nodup l [] (by simpa using h)
  simpa [pyDict] using this

/-- C6: merging the credential and API-version parameters into a continuation
URL never duplicates a key, an existing parameter in the URL always wins over
an injected one (the merged value for a key the URL already carries is the
URL's own value), and the merge is idempotent: merging the same parameters a
second time changes nothing. -/
theorem C6_merge_params (u : Url) (extra : List (String × String)) :
    ((merge_params_into_url u extra).query.map Prod.fst).Nodup ∧
    (∀ k, u.query.any (fun p => p.1 == k) = true →
        (merge_params_into_url u extra).query.lookup k = (pyDict u.query).lookup k) ∧
    merge_params_into_url (merge_params_into_url u extra) extra =
      merge_params_into_url u extra := by
  have hnd : ((extra.foldl addIfMissing (pyDict u.query)).map Prod.fst).Nodup :=
    nodup_foldl_addIfMissing extra (pyDict u.query) (pyDict_keys_nodup u.query)
  refine ⟨hnd, ?_, ?_⟩
  · intro k hk
    apply lookup_foldl_addIfMissing
    rw [hasK_pyDict]
    exact hk
  · have hq : extra.foldl addIfMissing
        (pyDict (extra.foldl addIfMissing (pyDict u.query))) =
        extra.foldl addIfMissing (pyDict u.query) := by
      rw [pyDict_of_nodup _ hnd]
      apply foldl_addIfMissing_absorbed
      intro kv hkv
      rw [hasK_foldl_addIfMissing]
      have : extra.any (fun p => p.1 == kv.1) = true :=
        List.any_eq_true.mpr ⟨kv, hkv, by simp⟩
      rw [this, Bool.or_true]
    show Url.mk u.rest (extra.foldl addIfMissing
        (pyDict (extra.foldl addIfMissing (pyDict u.query)))) =
      Url.mk u.rest (extra.foldl addIfMissing (pyDict u.query))
    rw [hq]

/-- C6 witness: the URL already carries `api-version=2.0`; the injected
`api-version=1.0` does not change its looked-up value. -/
theorem C6_merge_params_witness :
    (merge_params_into_url w6url w6extra).query.lookup "api-version" =
      (pyDict w6url.query).lookup "api-version" :=
  (C6_merge_params w6url w6extra).2.1 "api-version" (by decide)

theorem numberRows_addr (s : Sheet) : ∀ (l : List SheetRow) (i : Nat) (r : Row),
    r ∈ numberRows s i l → ∃ sr ∈ l, r.addr = sr.addr := by
  intro l
  induction l with
  | nil =>
    intro i r h
    simp [numberRows] at h
  | cons x xs ih =>
    intro i r h
    rw [numberRows] at h
    rcases List.mem_cons.mp h with h1 | h2
    · exact ⟨x, List.mem_cons_self x xs, by rw [h1]⟩
    · obtain ⟨sr, hsr, he⟩ := ih (i + 1) r h2
      exact ⟨sr, List.mem_cons_of_mem _ hsr, he⟩

/-- C10: when no row has a geocodable address (every address strips to the
empty string), `main` returns successfully without starting any batch network
round-trip, without writing a backup and without touching the workbook. -/
theorem C10_no_work_when_empty (key : String) (s : Sheet) (B : Nat)
    (net : Nat → Except MainErr Json)
    (hA : s.hasAddr = true)
    (hempty : ∀ r ∈ s.rows, pyStrip (astypeStr r.addr) = "") :
    runMain (some key) s B net = (.ok none, ⟨0, false, false⟩) := by
  have hfilter : (numberRows s 0 s.rows).filter eligible = [] := by
    rw [List.filter_eq_nil_iff]
    intro r hr
    obtain ⟨sr, hsr, he⟩ := numberRows_addr s s.rows 0 r hr
    have hz := hempty sr hsr
    simp [eligible, he, hz]
  simp [runMain, load_locations_ok s hA, hfilter]

/-- C10 witness: a sheet whose only address is whitespace, with a network
oracle that would fail if consulted. -/
theorem C10_no_work_when_empty_witness :
    runMain (some "KEY") c10sheet 100 (fun _ => .error .crash) =
      (.ok none, ⟨0, false, false⟩) :=
  C10_no_work_when_empty "KEY" c10sheet 100 (fun _ => .error .crash) rfl (by decide)

end AzureGeocode
